import Mathlib

/-!
Shallow embedding of the incremental, checkpointed synchronization engine of
the euler-v2-oracle-analysis repository, together with proofs about its
invariants, error handling and classification logic.

The embedded functions mirror, statement by statement, the TypeScript source:
  * `lib/utils.ts`    — `requireStartBlock`, `queryEventsInBatches`
  * `lib/oracle-vendor-mapping.ts` — `normalizeVendorName`, `getVendorForOracle`
  * step 1 (routers)  — `evaluateRouterFactoryQuery`, `processRouterDeployments`,
    `fetchRouters`
  * step 2 (vaults)   — `evaluateVaultFactoryQuery`

JavaScript-specific semantics (truthiness of numbers/strings, negative array
indexing returning `undefined`, `Set` insertion behaviour, the address-extracting
regular expression) are modelled explicitly by the `js*` helpers below.

Network interaction is modelled by passing explicit query environments
(functions from block ranges to results); the trace of network operations a run
performs is accumulated as an explicit list so that ordering properties
("before any network call") are provable.
-/

/-! ## JavaScript semantics helpers -/

/-- Truthiness of a possibly-absent JS number: `undefined` and `0` are falsy. -/
def jsTruthyNat : Option Nat → Bool
  | none => false
  | some n => n != 0

/-- Truthiness of a possibly-absent JS string: `undefined` and `""` are falsy. -/
def jsTruthyStr : Option String → Bool
  | none => false
  | some s => s != ""

/-- JS array indexing `xs[i]`: a negative or out-of-range index yields
`undefined` (JS arrays do not support negative indexing). -/
def jsIndex {α : Type} (xs : List α) (i : Int) : Option α :=
  if i < 0 then none else xs.get? i.toNat

/-- `String.prototype.toLowerCase` restricted to the ASCII range used by the
repository (addresses and vendor labels). -/
def jsToLower (s : String) : String :=
  String.mk (s.data.map Char.toLower)

/-- Whether `needle` occurs contiguously inside a character list
(JS `String.prototype.includes`). -/
def charSeqIncludes (needle : List Char) : List Char → Bool
  | [] => needle.isEmpty
  | c :: rest => needle.isPrefixOf (c :: rest) || charSeqIncludes needle rest

/-- JS `hay.includes(needle)`. -/
def strIncludes (hay needle : String) : Bool :=
  charSeqIncludes needle.data hay.data

/-- `Set.prototype.add`: append the element unless it is already present
(JS string identity is plain equality). -/
def setAdd (l : List String) (x : String) : List String :=
  if x ∈ l then l else l ++ [x]

/-- `new Set(list)`: deduplicate keeping first occurrences, in insertion
order. -/
def jsSetOfList (l : List String) : List String :=
  l.foldl setAdd []

/-- JS object update `m[k] = v`, with the object modelled extensionally as a
partial map from string keys. -/
def mapUpd {β : Type} (m : String → Option β) (k : String) (v : β) :
    String → Option β :=
  fun x => if x = k then some v else m x

/-! ## The address-extracting regular expression

`addressLink?.match(/0x[a-fA-F0-9]{40}/)?.[0]` extracts the leftmost
occurrence of `0x` followed by exactly 40 hexadecimal characters. -/

/-- ASCII hexadecimal digit test, matching the character class
`[a-fA-F0-9]`. -/
def isHexChar (c : Char) : Bool :=
  (('0' ≤ c) && (c ≤ '9')) || (('a' ≤ c) && (c ≤ 'f')) || (('A' ≤ c) && (c ≤ 'F'))

/-- Leftmost match of `/0x[a-fA-F0-9]{40}/` on a character list: try each
start position from the left; at a position the match succeeds when the text
reads `0x` followed by at least 40 hex characters, of which exactly 40 are
taken. -/
def findAddressMatch : List Char → Option (List Char)
  | [] => none
  | c :: rest =>
    if c == '0' && rest.head? == some 'x'
        && ((rest.drop 1).take 40).length == 40
        && ((rest.drop 1).take 40).all isHexChar then
      some (c :: 'x' :: (rest.drop 1).take 40)
    else
      findAddressMatch rest

/-- `addressLink?.match(/0x[a-fA-F0-9]{40}/)?.[0]` — `undefined` propagates
through the optional chain. -/
def extractAddress (link : Option String) : Option String :=
  link.bind (fun s => (findAddressMatch s.data).map (fun cs => String.mk cs))

/-- The all-zero address literal used by the source. -/
def zeroAddress : String := "0x0000000000000000000000000000000000000000"

/-! ## Data model (`lib/types.ts`) -/

/-- One scraped oracle-registry entry (`OracleData`). -/
structure OracleData where
  provider : Option String
  providerInfo : Option String
  addressLink : Option String
deriving DecidableEq

/-- One record of the composite-oracle detail table (`CrossOracleDetail`). -/
structure CrossOracleDetail where
  crossAddress : Option String
  baseCrossName : Option String
  crossQuoteName : Option String
  error : Option String
deriving DecidableEq

/-- The composite-oracle analysis output (`CrossOracleAnalysis`); its `details`
field is optional in the source type. -/
structure CrossOracleAnalysis where
  details : Option (List CrossOracleDetail)
deriving DecidableEq

/-- A factory-discovered deployment (`RouterDeployment` / `VaultDeployment`
share this shape). -/
structure RouterDeployment where
  address : String
  deploymentBlock : Nat
deriving DecidableEq

/-- `VaultDeployment` from `lib/types.ts`. -/
structure VaultDeployment where
  address : String
  deploymentBlock : Nat
deriving DecidableEq

/-- The static data consumed by vendor attribution (`LoadedOracleData`). -/
structure LoadedOracleData where
  eulerOracles : List OracleData
  crossAnalysis : CrossOracleAnalysis
  vaultDeployments : List VaultDeployment
deriving DecidableEq

/-- Vendor classification result (`VendorInfo`). -/
structure VendorInfo where
  vendor : String
  underlying : List String
  vendorType : String
deriving DecidableEq

/-! ## Vendor attribution (`lib/oracle-vendor-mapping.ts`) -/

/-- `normalizeVendorName`: a missing (or, by JS truthiness, empty) provider
label is classified as escrow; otherwise the lower-cased label runs through an
ordered, first-match-wins substring table. -/
def normalizeVendorName (providerInfo : Option String) : String :=
  match providerInfo with
  | none => "no oracle (escrow)"
  | some s =>
    if s = "" then "no oracle (escrow)"
    else
      let providerLower := jsToLower s
      if strIncludes providerLower "euler vault" then "Euler Vault"
      else if strIncludes providerLower "chainlink" then "Chainlink"
      else if strIncludes providerLower "redstone" || strIncludes providerLower "red stone" then "RedStone"
      else if strIncludes providerLower "pyth" then "Pyth"
      else if strIncludes providerLower "pendle" then "Pendle"
      else if strIncludes providerLower "chronicle" then "Chronicle"
      else if strIncludes providerLower "midas" then "Midas"
      else if strIncludes providerLower "resolv" then "Resolv"
      else if strIncludes providerLower "idle" then "Idle"
      else if strIncludes providerLower "mev capital" then "MEV Capital"
      else if strIncludes providerLower "cross" then "Cross"
      else if strIncludes providerLower "fixed rate" then "Fixed Rate"
      else if strIncludes providerLower "rate provider" then "Rate Provider"
      else if strIncludes providerLower "lido fundamental" then "Lido Fundamental"
      else "Other"

/-- The callback of the registry search in `getVendorForOracle`: an entry
matches when its link contains an extractable address that is not the zero
address and equals the adapter address case-insensitively.  Entries whose
extracted address is the zero address are explicitly rejected here. -/
def registryEntryMatches (adapterAddress : String) (el : OracleData) : Bool :=
  match extractAddress el.addressLink with
  | none => false
  | some fullAddress =>
    if fullAddress == zeroAddress then false
    else jsToLower fullAddress == jsToLower adapterAddress

/-- The vault-set search of `getVendorForOracle`. -/
def vaultMatch (adapterAddress : String) (vaultDeployments : List VaultDeployment) :
    Option VaultDeployment :=
  vaultDeployments.find? (fun vault => jsToLower vault.address == jsToLower adapterAddress)

/-- The composite-detail lookup of `getVendorForOracle`
(`crossAnalysis.details?.find(...)`). -/
def crossDetailFind (adapterAddress : String) (crossAnalysis : CrossOracleAnalysis) :
    Option CrossOracleDetail :=
  match crossAnalysis.details with
  | none => none
  | some details =>
    details.find? (fun c =>
      match c.crossAddress with
      | none => false
      | some ca => jsToLower ca == jsToLower adapterAddress)

/-- `getVendorForOracle`, translated statement by statement.  Note that the
two checks after the registry search (`fullAddress === zero`, `!fullAddress`)
are kept even though the search predicate already excludes those entries. -/
def getVendorForOracle (adapterAddress : String) (oracleData : LoadedOracleData) :
    VendorInfo :=
  match vaultMatch adapterAddress oracleData.vaultDeployments with
  | some _ =>
    { vendor := "Euler Vault", underlying := [], vendorType := "vault" }
  | none =>
    match oracleData.eulerOracles.find? (registryEntryMatches adapterAddress) with
    | none =>
      { vendor := "oracle not known", underlying := [], vendorType := "error" }
    | some oracle =>
      match extractAddress oracle.addressLink with
      | some fullAddress =>
        if fullAddress = zeroAddress then
          { vendor := "no oracle (escrow)", underlying := []
            vendorType := "no oracle (escrow)" }
        else
          let vendor := normalizeVendorName oracle.providerInfo
          if vendor = "Cross" then
            match crossDetailFind adapterAddress oracleData.crossAnalysis with
            | some crossOracle =>
              if jsTruthyStr crossOracle.error then
                { vendor := vendor, underlying := [], vendorType := "external" }
              else
                { vendor := "Cross"
                  underlying := [normalizeVendorName crossOracle.baseCrossName,
                                 normalizeVendorName crossOracle.crossQuoteName]
                  vendorType := "external" }
            | none =>
              { vendor := vendor, underlying := [], vendorType := "external" }
          else
            { vendor := vendor, underlying := [], vendorType := "external" }
      | none =>
        { vendor := "no oracle address stored", underlying := [], vendorType := "error" }

/-! ## Batch event fetching (`lib/utils.ts`)

`queryEventsInBatches` walks the range in contiguous batches.  The chain is
modelled by `q : Nat → Nat → Option (List α)`: `q from to` is the response of
`contract.queryFilter(filter, from, to)`, with `none` standing for a thrown
RPC error.  The function returns the accumulated events together with the
trace of attempted batch queries `(fromBlock, endBlock, batchSize)` in
execution order.

The JS `while` loop is rendered as recursion on the remaining range; a failing
batch is retried over the same sub-range with half the batch size whenever the
current batch size exceeds 1000, exactly as in the source.  A batch size of 0
would make the JS loop spin forever; it is unreachable from the entry point
(the initial size is 10000 and halving stops as soon as the size is ≤ 1000),
and the model returns an empty result there to stay total.

To keep the function computable by the kernel, the recursion is structural on
an explicit `fuel` argument instantiated with the termination measure
`toBlock + 1 - fromBlock + batchSize`, which strictly decreases at each
recursive call (either the remaining range shrinks or the batch size halves).
`queryEventsInBatchesFuel_congr` below proves that any fuel at least the
measure yields the same result, and `queryEventsInBatches_eq` recovers the
direct recursive equation of the source, so the fuel never truncates the
loop. -/
def queryEventsInBatchesFuel {α : Type} (q : Nat → Nat → Option (List α)) :
    Nat → Nat → Nat → Nat → List α × List (Nat × Nat × Nat)
  | 0, _, _, _ => ([], [])
  | fuel + 1, fromBlock, toBlock, batchSize =>
    if toBlock < fromBlock then ([], [])
    else if batchSize = 0 then ([], [])
    else
      match q fromBlock (min (fromBlock + batchSize - 1) toBlock) with
      | some events =>
        (events
            ++ (queryEventsInBatchesFuel q fuel
                  (min (fromBlock + batchSize - 1) toBlock + 1) toBlock batchSize).1,
          (fromBlock, min (fromBlock + batchSize - 1) toBlock, batchSize)
            :: (queryEventsInBatchesFuel q fuel
                  (min (fromBlock + batchSize - 1) toBlock + 1) toBlock batchSize).2)
      | none =>
        ((if 1000 < batchSize then
            queryEventsInBatchesFuel q fuel fromBlock
              (min (fromBlock + batchSize - 1) toBlock) (batchSize / 2)
          else ([], [])).1
            ++ (queryEventsInBatchesFuel q fuel
                  (min (fromBlock + batchSize - 1) toBlock + 1) toBlock batchSize).1,
          (fromBlock, min (fromBlock + batchSize - 1) toBlock, batchSize)
            :: ((if 1000 < batchSize then
                  queryEventsInBatchesFuel q fuel fromBlock
                    (min (fromBlock + batchSize - 1) toBlock) (batchSize / 2)
                else ([], [])).2
                  ++ (queryEventsInBatchesFuel q fuel
                        (min (fromBlock + batchSize - 1) toBlock + 1) toBlock batchSize).2))

/-- `queryEventsInBatches(contract, filter, fromBlock, toBlock, batchSize)`:
the fuel is the termination measure of the loop. -/
def queryEventsInBatches {α : Type} (q : Nat → Nat → Option (List α))
    (fromBlock toBlock batchSize : Nat) : List α × List (Nat × Nat × Nat) :=
  queryEventsInBatchesFuel q (toBlock + 1 - fromBlock + batchSize) fromBlock toBlock
    batchSize

/-! ## Progress state (`lib/types.ts`, `lib/progress.ts`) -/

/-- Per-router cached facts (`RouterInfo`).  The `Record<string, ...>` fields
are modelled extensionally as partial maps; note the interface has no field in
which an error could be recorded. -/
structure RouterInfo where
  deploymentBlock : Nat
  adapters : List String
  assetPairs : String → Option (List String)
  vendorInfo : String → Option VendorInfo
  configEventsCount : Nat
  vaultEventsCount : Nat

/-- Per-vault cached facts (`VaultInfo`), restricted to the fields the
synchronization engine itself writes. -/
structure VaultInfo where
  oracle : String
  asset : String
  vendors : List String
  vendorType : String
  deploymentBlock : Nat

/-- The durable progress/checkpoint structure (`Progress`). -/
structure Progress where
  routers : String → Option RouterInfo
  vaults : String → Option VaultInfo
  processedRouters : String → Option Nat
  processedVaults : String → Option Nat
  lastRouterFactoryBlock : Option Nat
  lastVaultFactoryBlock : Option Nat

/-! ## Start-block requirement (`lib/utils.ts`) -/

/-- `requireStartBlock`: `process.exit(1)` with an actionable message is
modelled as `Except.error`; by JS truthiness a configured value of `0` is also
rejected. -/
def requireStartBlock (blockVar : Option Nat) (factoryName envVarName : String) :
    Except String Nat :=
  if jsTruthyNat blockVar = false then
    Except.error ("ERROR: " ++ envVarName ++ " is not set in .env file (factory "
      ++ factoryName ++ ")")
  else
    Except.ok (blockVar.getD 0)

/-! ## Range resolution (step 1a and step 2a) -/

/-- The router factory address constant. -/
def ROUTER_FACTORY : String := "0x70B3f6F61b7Bf237DF04589DdAA842121072326A"

/-- The vault factory address constant. -/
def EVAULT_FACTORY : String := "0x29a56a1b8214D9Cf7c5561811750D5cBDb45CC8e"

/-- Step 1a (`evaluateRouterFactoryQuery`): decide whether the router factory
must be queried and from which block.  `deployments` is the cached deployment
list loaded from file; `cfg` is `ROUTER_FACTORY_START_BLOCK`.

Faithful JS details: the checkpoint test is a truthiness test (a checkpoint of
`0` counts as absent); `allRouterDeployments[-1]` is JS property access with a
negative index and therefore always `undefined`; in the cache-only branch
`shouldQueryFactory` is left `false`. -/
def evaluateRouterFactoryQuery (cfg : Option Nat)
    (deployments : List RouterDeployment) (progress : Progress) :
    Except String (Nat × Bool) :=
  if jsTruthyNat progress.lastRouterFactoryBlock then
    let fromBlock := progress.lastRouterFactoryBlock.getD 0 + 1
    let alternativeStart :=
      ((jsIndex deployments (-1)).map (fun d => d.deploymentBlock)).getD fromBlock
    Except.ok ((if alternativeStart > fromBlock then fromBlock else alternativeStart),
      true)
  else if deployments.length > 0 then
    Except.ok (((jsIndex deployments (-1)).map (fun d => d.deploymentBlock)).getD 0,
      false)
  else
    (requireStartBlock cfg ROUTER_FACTORY "ROUTER_FACTORY_START_BLOCK").map
      (fun b => (b, true))

/-- Step 2a (`evaluateVaultFactoryQuery`).  With cached deployments but no
checkpoint the vault variant rescans the recent window
`Math.max(currentBlock - 10000, 0)` (truncated subtraction on `Nat`) and does
set `shouldQueryFactory = true`. -/
def evaluateVaultFactoryQuery (cfg : Option Nat)
    (deployments : List VaultDeployment) (progress : Progress)
    (currentBlock : Nat) : Except String (Nat × Bool) :=
  if jsTruthyNat progress.lastVaultFactoryBlock then
    Except.ok (progress.lastVaultFactoryBlock.getD 0 + 1, true)
  else if deployments.length > 0 then
    Except.ok (currentBlock - 10000, true)
  else
    (requireStartBlock cfg EVAULT_FACTORY "EVAULT_FACTORY_START_BLOCK").map
      (fun b => (b, true))

/-! ## Router entity processing (step 1c, `processRouterDeployments`) -/

/-- A decoded `ConfigSet` event. -/
structure ConfigEvent where
  asset0 : String
  asset1 : String
  oracle : String
deriving DecidableEq

/-- The body of `configEvents.forEach(...)`: add the oracle to the adapter
set, and push it onto the asset-pair entry, creating the entry when the key is
absent (`if (!assetPairs[key]) assetPairs[key] = []`). -/
def applyConfigEvent (acc : List String × (String → Option (List String)))
    (e : ConfigEvent) : List String × (String → Option (List String)) :=
  let adapters := setAdd acc.1 e.oracle
  let key := e.asset0 ++ "-" ++ e.asset1
  let pairList := (acc.2 key).getD []
  (adapters, mapUpd acc.2 key (pairList ++ [e.oracle]))

/-- The `for (const adapter of adapters)` loop building `vendorInfo`. -/
def buildVendorInfo (oracleData : LoadedOracleData) (adapters : List String) :
    String → Option VendorInfo :=
  adapters.foldl (fun m adapter => mapUpd m adapter (getVendorForOracle adapter oracleData))
    (fun _ => none)

/-- One iteration of the router loop of `processRouterDeployments`.

`q from to` stands for the whole guarded block: the `ConfigSet` query for this
router over `[from, to]` together with decoding; `Except.error` is any thrown
query/decode error, which the source catches after logging, leaving the
progress object untouched (the `catch` block only calls `console.error`).

The second component of the result is the query range issued: `none` means the
entity was skipped by the recheck-interval policy.  On success the source
mutates `progress.routers` and `progress.processedRouters` and then persists;
persistence is outside this model. -/
def processOneRouter (recheckInterval : Nat) (oracleData : LoadedOracleData)
    (q : Nat → Nat → Except String (List ConfigEvent))
    (deployment : RouterDeployment) (currentBlock : Nat) (progress : Progress) :
    Progress × Option (Nat × Nat) :=
  let routerAddress := deployment.address
  let startInfo : Option (Nat × Bool) :=
    match progress.processedRouters routerAddress with
    | some lastProcessedBlock =>
      if (currentBlock : Int) - (lastProcessedBlock : Int) < (recheckInterval : Int) then
        none
      else some (lastProcessedBlock + 1, true)
    | none => some (deployment.deploymentBlock, false)
  match startInfo with
  | none => (progress, none)
  | some (queryFromBlock, isRecheck) =>
    match q queryFromBlock currentBlock with
    | Except.error _ => (progress, some (queryFromBlock, currentBlock))
    | Except.ok configEvents =>
      let existingRouterInfo := progress.routers routerAddress
      let start : List String × (String → Option (List String)) :=
        match isRecheck, existingRouterInfo with
        | true, some info => (jsSetOfList info.adapters, info.assetPairs)
        | _, _ => ([], fun _ => none)
      let folded := configEvents.foldl applyConfigEvent start
      let totalConfigEvents :=
        match isRecheck, existingRouterInfo with
        | true, some info => info.configEventsCount + configEvents.length
        | _, _ => configEvents.length
      let newInfo : RouterInfo :=
        { deploymentBlock := deployment.deploymentBlock
          adapters := folded.1
          assetPairs := folded.2
          vendorInfo := buildVendorInfo oracleData folded.1
          configEventsCount := totalConfigEvents
          vaultEventsCount := 0 }
      ({ progress with
          routers := mapUpd progress.routers routerAddress newInfo
          processedRouters := mapUpd progress.processedRouters routerAddress currentBlock },
        some (queryFromBlock, currentBlock))

/-- A network operation, for tracing call order. -/
inductive NetOp where
  | getBlockNumber : NetOp
  | eventQuery (address : String) (fromBlock toBlock : Nat) : NetOp
deriving DecidableEq

/-- The router loop of `processRouterDeployments` (the `for` loop iterating
over all cached deployments): each iteration threads the mutated progress
object into the next, and the issued per-router query ranges are collected in
execution order. -/
def processRoutersFold (recheckInterval : Nat) (oracleData : LoadedOracleData)
    (env : String → Nat → Nat → Except String (List ConfigEvent)) :
    List RouterDeployment → Nat → Progress → Progress × List NetOp
  | [], _, progress => (progress, [])
  | d :: ds, currentBlock, progress =>
    match processOneRouter recheckInterval oracleData (env d.address) d
        currentBlock progress with
    | (progress2, issued) =>
      match processRoutersFold recheckInterval oracleData env ds currentBlock
          progress2 with
      | (progress3, trace) =>
        (progress3,
          (match issued with
            | some (a, b) => [NetOp.eventQuery d.address a b]
            | none => []) ++ trace)

/-- `processRouterDeployments`: run the loop, then record the factory
checkpoint `lastRouterFactoryBlock = currentBlock` and persist. -/
def processRouterDeployments (recheckInterval : Nat)
    (oracleData : LoadedOracleData)
    (env : String → Nat → Nat → Except String (List ConfigEvent))
    (deployments : List RouterDeployment) (currentBlock : Nat)
    (progress : Progress) : Progress × List NetOp :=
  let r := processRoutersFold recheckInterval oracleData env deployments
    currentBlock progress
  ({ r.1 with lastRouterFactoryBlock := some currentBlock }, r.2)

/-! ## Router run (`fetchRouters`) -/

/-- A raw `ContractDeployed` factory event before the
`event && event.args?.router` filter. -/
structure FactoryEvent where
  router : Option String
  blockNumber : Nat
deriving DecidableEq

/-- `fetchRouters`: the full step-1 run.

Inputs model the ambient effects: `head` is the result of
`provider.getBlockNumber()` (the first network call of the run), `cached` the
deployment list loaded from file, `factoryQ` the chain responses for factory
event queries, `routerQ` the per-router config-event queries.  The returned
trace lists the network operations in execution order; the factory query is
traced per attempted batch, a processed router as one logical query. -/
def fetchRouters (cfg : Option Nat) (recheckInterval : Nat)
    (oracleData : LoadedOracleData) (head : Nat)
    (cached : List RouterDeployment)
    (factoryQ : Nat → Nat → Option (List FactoryEvent))
    (routerQ : String → Nat → Nat → Except String (List ConfigEvent))
    (progress : Progress) : Except String Progress × List NetOp :=
  match evaluateRouterFactoryQuery cfg cached progress with
  | Except.error e => (Except.error e, [NetOp.getBlockNumber])
  | Except.ok (fromBlock, shouldQueryFactory) =>
    let factoryRes :=
      if shouldQueryFactory then queryEventsInBatches factoryQ fromBlock head 10000
      else ([], [])
    let newDeployments : List RouterDeployment :=
      (factoryRes.1.filter (fun e => jsTruthyStr e.router)).map
        (fun e => { address := e.router.getD "", deploymentBlock := e.blockNumber })
    let existingAddresses := cached.map (fun d => jsToLower d.address)
    let allDeployments :=
      cached ++ newDeployments.filter
        (fun d => !(existingAddresses.contains (jsToLower d.address)))
    let procRes := processRouterDeployments recheckInterval oracleData routerQ
      allDeployments head progress
    (Except.ok procRes.1,
      NetOp.getBlockNumber
        :: (factoryRes.2.map (fun a => NetOp.eventQuery ROUTER_FACTORY a.1 a.2.1)
              ++ procRes.2))

/-! ## Batch sizes reachable by halving -/

/-- The batch sizes reachable from an initial size by the retry rule of
`queryEventsInBatches`: the size itself, and — whenever the size exceeds the
retry floor 1000 — anything reachable from its half. -/
inductive ReachableBatchSize : Nat → Nat → Prop where
  | refl (bs : Nat) : ReachableBatchSize bs bs
  | halve (bs s : Nat) : 1000 < bs → ReachableBatchSize (bs / 2) s →
      ReachableBatchSize bs s

/-! ## Concrete sample data used to instantiate the theorems -/

/-- The fresh progress object returned by `loadProgress` when no file
exists. -/
def emptyProgress : Progress :=
  { routers := fun _ => none
    vaults := fun _ => none
    processedRouters := fun _ => none
    processedVaults := fun _ => none
    lastRouterFactoryBlock := none
    lastVaultFactoryBlock := none }

/-- Oracle data with empty registry, empty composite table and no vaults. -/
def emptyOracleData : LoadedOracleData :=
  { eulerOracles := [], crossAnalysis := { details := none }, vaultDeployments := [] }

/-- A per-router query environment that always fails (thrown RPC/decode
error). -/
def failingRouterQuery : Nat → Nat → Except String (List ConfigEvent) :=
  fun _ _ => Except.error "could not decode result data"

/-- A per-router query environment that succeeds with no events. -/
def emptyOkRouterQuery : Nat → Nat → Except String (List ConfigEvent) :=
  fun _ _ => Except.ok []

/-- A chain responder for batch queries that always throws. -/
def alwaysFailingBatchQuery : Nat → Nat → Option (List Unit) :=
  fun _ _ => none

/-- A chain responder for batch queries that always succeeds with no
events. -/
def alwaysEmptyBatchQuery : Nat → Nat → Option (List Unit) :=
  fun _ _ => some []

/-- A sample cached router record whose `vaultEventsCount` is nonzero, as a
progress file may contain (the progress file is parsed unvalidated JSON). -/
def sampleRouterInfo : RouterInfo :=
  { deploymentBlock := 10
    adapters := ["0xadapter1"]
    assetPairs := fun k => if k = "0xa-0xb" then some ["0xadapter1"] else none
    vendorInfo := fun _ => none
    configEventsCount := 3
    vaultEventsCount := 1 }

/-- A progress state holding `sampleRouterInfo` under address `0xrouter`,
last processed at block 1000. -/
def sampleProgress : Progress :=
  { emptyProgress with
      routers := fun a => if a = "0xrouter" then some sampleRouterInfo else none
      processedRouters := fun a => if a = "0xrouter" then some 1000 else none }

/-- The deployment record for the sample router. -/
def sampleDeployment : RouterDeployment :=
  { address := "0xrouter", deploymentBlock := 10 }

/-- A registry whose single entry carries the all-zero address. -/
def zeroEntryRegistry : LoadedOracleData :=
  { eulerOracles :=
      [{ provider := some "Chainlink"
         providerInfo := some "Chainlink Data Feed"
         addressLink :=
           some "https://etherscan.io/address/0x0000000000000000000000000000000000000000" }]
    crossAnalysis := { details := none }
    vaultDeployments := [] }

/-- A sample adapter address (mixed case, to exercise the case-insensitive
matching). -/
def crossAdapterAddress : String := "0xAbCd00000000000000000000000000000000ef12"

/-- A registry entry whose provider label normalizes to the composite marker
`Cross` and whose link carries `crossAdapterAddress` in different case. -/
def crossRegistryEntry : OracleData :=
  { provider := some "Cross"
    providerInfo := some "Cross adapter"
    addressLink :=
      some "https://etherscan.io/address/0xabcd00000000000000000000000000000000EF12" }

/-- A composite-detail record for `crossAdapterAddress` with two resolvable
legs and no error. -/
def crossDetailOk : CrossOracleDetail :=
  { crossAddress := some "0xABCD00000000000000000000000000000000Ef12"
    baseCrossName := some "Chainlink ETH/USD"
    crossQuoteName := some "Pyth BTC/USD"
    error := none }

/-- The same composite-detail record, but carrying an error. -/
def crossDetailErr : CrossOracleDetail :=
  { crossDetailOk with error := some "call failed" }

/-- Oracle data in which the composite lookup succeeds without error. -/
def crossDataOk : LoadedOracleData :=
  { eulerOracles := [crossRegistryEntry]
    crossAnalysis := { details := some [crossDetailOk] }
    vaultDeployments := [] }

/-- Oracle data in which the composite lookup finds an errored record. -/
def crossDataErr : LoadedOracleData :=
  { eulerOracles := [crossRegistryEntry]
    crossAnalysis := { details := some [crossDetailErr] }
    vaultDeployments := [] }

/-- Oracle data in which the composite-detail table has no record for the
adapter. -/
def crossDataMissing : LoadedOracleData :=
  { eulerOracles := [crossRegistryEntry]
    crossAnalysis := { details := some [] }
    vaultDeployments := [] }

/-- Oracle data whose known-vault set contains `crossAdapterAddress` (in a
different case) while the registry also lists it: the vault rule must win. -/
def vaultSetData : LoadedOracleData :=
  { eulerOracles := [crossRegistryEntry]
    crossAnalysis := { details := none }
    vaultDeployments :=
      [{ address := "0xABCD00000000000000000000000000000000EF12", deploymentBlock := 5 }] }

/-! ## Supporting lemmas -/

theorem mapUpd_self {β : Type} (m : String → Option β) (k : String) (v : β) :
    mapUpd m k v k = some v := by
  simp [mapUpd]

theorem mapUpd_ne {β : Type} (m : String → Option β) {k x : String} (v : β)
    (h : x ≠ k) : mapUpd m k v x = m x := by
  simp [mapUpd, h]

/-- Fuel irrelevance: any fuel at least the termination measure produces the
same result, so the fuel parameter never cuts the loop short. -/
theorem queryEventsInBatchesFuel_congr {α : Type} (q : Nat → Nat → Option (List α)) :
    ∀ n m fromBlock toBlock batchSize,
      toBlock + 1 - fromBlock + batchSize ≤ n →
      toBlock + 1 - fromBlock + batchSize ≤ m →
      queryEventsInBatchesFuel q n fromBlock toBlock batchSize
        = queryEventsInBatchesFuel q m fromBlock toBlock batchSize := by
  intro n
  induction n using Nat.strong_induction_on with
  | _ n ih =>
    intro m fromBlock toBlock batchSize hn hm
    match n, m with
    | 0, 0 => rfl
    | 0, m + 1 =>
      have h1 : toBlock < fromBlock := by omega
      simp [queryEventsInBatchesFuel, h1]
    | n + 1, 0 =>
      have h1 : toBlock < fromBlock := by omega
      simp [queryEventsInBatchesFuel, h1]
    | n + 1, m + 1 =>
      by_cases h1 : toBlock < fromBlock
      · simp [queryEventsInBatchesFuel, h1]
      · by_cases h2 : batchSize = 0
        · simp [queryEventsInBatchesFuel, h1, h2]
        · have hrest : queryEventsInBatchesFuel q n
              (min (fromBlock + batchSize - 1) toBlock + 1) toBlock batchSize
              = queryEventsInBatchesFuel q m
                  (min (fromBlock + batchSize - 1) toBlock + 1) toBlock batchSize := by
            apply ih n (by omega)
            · omega
            · omega
          have hretry : queryEventsInBatchesFuel q n fromBlock
              (min (fromBlock + batchSize - 1) toBlock) (batchSize / 2)
              = queryEventsInBatchesFuel q m fromBlock
                  (min (fromBlock + batchSize - 1) toBlock) (batchSize / 2) := by
            apply ih n (by omega)
            · omega
            · omega
          simp only [queryEventsInBatchesFuel, if_neg h1, if_neg h2, hrest, hretry]

/-- The direct recursive equation satisfied by `queryEventsInBatches`,
matching the source loop literally. -/
theorem queryEventsInBatches_eq {α : Type} (q : Nat → Nat → Option (List α))
    (fromBlock toBlock batchSize : Nat) :
    queryEventsInBatches q fromBlock toBlock batchSize
      = if toBlock < fromBlock then ([], [])
        else if batchSize = 0 then ([], [])
        else
          match q fromBlock (min (fromBlock + batchSize - 1) toBlock) with
          | some events =>
            (events
                ++ (queryEventsInBatches q
                      (min (fromBlock + batchSize - 1) toBlock + 1) toBlock batchSize).1,
              (fromBlock, min (fromBlock + batchSize - 1) toBlock, batchSize)
                :: (queryEventsInBatches q
                      (min (fromBlock + batchSize - 1) toBlock + 1) toBlock batchSize).2)
          | none =>
            ((if 1000 < batchSize then
                queryEventsInBatches q fromBlock
                  (min (fromBlock + batchSize - 1) toBlock) (batchSize / 2)
              else ([], [])).1
                ++ (queryEventsInBatches q
                      (min (fromBlock + batchSize - 1) toBlock + 1) toBlock batchSize).1,
              (fromBlock, min (fromBlock + batchSize - 1) toBlock, batchSize)
                :: ((if 1000 < batchSize then
                      queryEventsInBatches q fromBlock
                        (min (fromBlock + batchSize - 1) toBlock) (batchSize / 2)
                    else ([], [])).2
                      ++ (queryEventsInBatches q
                            (min (fromBlock + batchSize - 1) toBlock + 1) toBlock
                            batchSize).2)) := by
  by_cases h1 : toBlock < fromBlock
  · have hz : toBlock + 1 - fromBlock + batchSize = batchSize := by omega
    unfold queryEventsInBatches
    rw [hz]
    cases batchSize with
    | zero => simp [queryEventsInBatchesFuel, h1]
    | succ b => simp [queryEventsInBatchesFuel, h1]
  · by_cases h2 : batchSize = 0
    · unfold queryEventsInBatches
      have hz : toBlock + 1 - fromBlock + batchSize = toBlock + 1 - fromBlock := by omega
      rw [hz]
      cases hh : toBlock + 1 - fromBlock with
      | zero => simp [queryEventsInBatchesFuel, h1, h2]
      | succ k => simp [queryEventsInBatchesFuel, h1, h2]
    · have hpos : 0 < toBlock + 1 - fromBlock + batchSize := by omega
      unfold queryEventsInBatches
      obtain ⟨k, hk⟩ : ∃ k, toBlock + 1 - fromBlock + batchSize = k + 1 :=
        ⟨toBlock + 1 - fromBlock + batchSize - 1, by omega⟩
      rw [hk]
      simp only [queryEventsInBatchesFuel, if_neg h1, if_neg h2]
      have hrest : queryEventsInBatchesFuel q k
          (min (fromBlock + batchSize - 1) toBlock + 1) toBlock batchSize
          = queryEventsInBatchesFuel q
              (toBlock + 1 - (min (fromBlock + batchSize - 1) toBlock + 1) + batchSize)
              (min (fromBlock + batchSize - 1) toBlock + 1) toBlock batchSize := by
        apply queryEventsInBatchesFuel_congr <;> omega
      have hretry : queryEventsInBatchesFuel q k fromBlock
          (min (fromBlock + batchSize - 1) toBlock) (batchSize / 2)
          = queryEventsInBatchesFuel q
              (min (fromBlock + batchSize - 1) toBlock + 1 - fromBlock + batchSize / 2)
              fromBlock (min (fromBlock + batchSize - 1) toBlock) (batchSize / 2) := by
        apply queryEventsInBatchesFuel_congr <;> omega
      rw [hrest, hretry]

theorem mem_setAdd {l : List String} {x : String} (y : String) (h : x ∈ l) :
    x ∈ setAdd l y := by
  unfold setAdd
  split
  · exact h
  · exact List.mem_append_left _ h

theorem mem_setAdd_self (l : List String) (y : String) : y ∈ setAdd l y := by
  unfold setAdd
  split
  · assumption
  · exact List.mem_append_right _ (List.mem_singleton.mpr rfl)

theorem mem_foldl_setAdd : ∀ (l acc : List String) (x : String),
    x ∈ acc ∨ x ∈ l → x ∈ l.foldl setAdd acc := by
  intro l
  induction l with
  | nil =>
    intro acc x h
    simpa using h.resolve_right (by simp)
  | cons a l ih =>
    intro acc x h
    simp only [List.foldl_cons]
    rcases h with h | h
    · exact ih _ _ (Or.inl (mem_setAdd a h))
    · rcases List.mem_cons.mp h with rfl | h
      · exact ih _ _ (Or.inl (mem_setAdd_self acc x))
      · exact ih _ _ (Or.inr h)

theorem mem_jsSetOfList {l : List String} {x : String} (h : x ∈ l) :
    x ∈ jsSetOfList l :=
  mem_foldl_setAdd l [] x (Or.inr h)

theorem foldl_applyConfigEvent_adapters_mono :
    ∀ (evs : List ConfigEvent) (acc : List String × (String → Option (List String)))
      (x : String), x ∈ acc.1 → x ∈ (evs.foldl applyConfigEvent acc).1 := by
  intro evs
  induction evs with
  | nil => intro acc x h; simpa using h
  | cons e evs ih =>
    intro acc x h
    simp only [List.foldl_cons]
    exact ih _ x (mem_setAdd e.oracle h)

theorem foldl_applyConfigEvent_pairs_mono :
    ∀ (evs : List ConfigEvent) (acc : List String × (String → Option (List String)))
      (k : String) (l : List String), acc.2 k = some l →
      ∃ rest, (evs.foldl applyConfigEvent acc).2 k = some (l ++ rest) := by
  intro evs
  induction evs with
  | nil =>
    intro acc k l h
    exact ⟨[], by simpa using h⟩
  | cons e evs ih =>
    intro acc k l h
    simp only [List.foldl_cons]
    by_cases hk : k = e.asset0 ++ "-" ++ e.asset1
    · have h2 : (applyConfigEvent acc e).2 k = some (l ++ [e.oracle]) := by
        subst hk
        simp [applyConfigEvent, mapUpd_self, h]
      obtain ⟨rest, hrest⟩ := ih (applyConfigEvent acc e) k (l ++ [e.oracle]) h2
      exact ⟨[e.oracle] ++ rest, by rw [hrest, List.append_assoc]⟩
    · have h2 : (applyConfigEvent acc e).2 k = some l := by
        simp only [applyConfigEvent]
        rw [mapUpd_ne _ _ hk]
        exact h
      exact ih _ k l h2

theorem reachableBatchSize_inv {bs s : Nat} (h : ReachableBatchSize bs s) :
    s = bs ∨ (1000 < bs ∧ ReachableBatchSize (bs / 2) s) := by
  cases h with
  | refl => exact Or.inl rfl
  | halve _ _ h1 h2 => exact Or.inr ⟨h1, h2⟩

theorem reachableBatchSize_from_10000 {s : Nat} (h : ReachableBatchSize 10000 s) :
    s ∈ [10000, 5000, 2500, 1250, 625] := by
  rcases reachableBatchSize_inv h with rfl | ⟨-, h⟩
  · simp
  rw [show (10000 : Nat) / 2 = 5000 by norm_num] at h
  rcases reachableBatchSize_inv h with rfl | ⟨-, h⟩
  · simp
  rw [show (5000 : Nat) / 2 = 2500 by norm_num] at h
  rcases reachableBatchSize_inv h with rfl | ⟨-, h⟩
  · simp
  rw [show (2500 : Nat) / 2 = 1250 by norm_num] at h
  rcases reachableBatchSize_inv h with rfl | ⟨-, h⟩
  · simp
  rw [show (1250 : Nat) / 2 = 625 by norm_num] at h
  rcases reachableBatchSize_inv h with rfl | ⟨h1000, -⟩
  · simp
  · omega

theorem queryEventsInBatchesFuel_sizes_reachable {α : Type}
    (q : Nat → Nat → Option (List α)) :
    ∀ (fuel fromBlock toBlock batchSize : Nat)
      (x : Nat × Nat × Nat),
      x ∈ (queryEventsInBatchesFuel q fuel fromBlock toBlock batchSize).2 →
      ReachableBatchSize batchSize x.2.2 := by
  intro fuel
  induction fuel with
  | zero =>
    intro f t bs x hx
    simp [queryEventsInBatchesFuel] at hx
  | succ n ih =>
    intro f t bs x hx
    simp only [queryEventsInBatchesFuel] at hx
    split at hx
    · simp at hx
    · split at hx
      · simp at hx
      · cases hq : q f (min (f + bs - 1) t) with
        | some evs =>
          rw [hq] at hx
          rcases List.mem_cons.mp hx with rfl | hx
          · exact ReachableBatchSize.refl bs
          · exact ih _ _ _ x hx
        | none =>
          rw [hq] at hx
          rcases List.mem_cons.mp hx with rfl | hx
          · exact ReachableBatchSize.refl bs
          · rcases List.mem_append.mp hx with hx | hx
            · by_cases h1000 : 1000 < bs
              · rw [if_pos h1000] at hx
                exact ReachableBatchSize.halve bs _ h1000 (ih _ _ _ x hx)
              · rw [if_neg h1000] at hx
                simp at hx
            · exact ih _ _ _ x hx

theorem queryEventsInBatchesFuel_fail_events {α : Type}
    (q : Nat → Nat → Option (List α)) (hq : ∀ a b, q a b = none) :
    ∀ (fuel fromBlock toBlock batchSize : Nat),
      (queryEventsInBatchesFuel q fuel fromBlock toBlock batchSize).1 = [] := by
  intro fuel
  induction fuel with
  | zero => intro f t bs; simp [queryEventsInBatchesFuel]
  | succ n ih =>
    intro f t bs
    simp only [queryEventsInBatchesFuel]
    split
    · rfl
    · split
      · rfl
      · rw [hq f (min (f + bs - 1) t)]
        simp only [List.append_eq_nil]
        constructor
        · split
          · exact ih _ _ _
          · rfl
        · exact ih _ _ _

/-! ## Claim theorems -/

/-- C10: for every pair of blocks with `fromBlock > toBlock`, the batch event
fetcher returns the empty event list and issues no query at all (its attempt
trace is empty); this is what makes the policy of always querying from
`checkpoint + 1` safe when the checkpoint already equals the current head. -/
theorem emptyRangeNoQuery {α : Type} (q : Nat → Nat → Option (List α))
    (fromBlock toBlock batchSize : Nat) (h : toBlock < fromBlock) :
    queryEventsInBatches q fromBlock toBlock batchSize = ([], []) := by
  rw [queryEventsInBatches_eq, if_pos h]

/-- Witness for `emptyRangeNoQuery` at the concrete range `[5, 3]`, as arises
for a source whose checkpoint equals the chain head (`from = head + 1`). -/
theorem emptyRangeNoQuery_witness :
    queryEventsInBatches alwaysEmptyBatchQuery 5 3 10000 = ([], []) :=
  emptyRangeNoQuery alwaysEmptyBatchQuery 5 3 10000 (by decide)

/-- C4 counterexample: on the range `[0, 9999]` with every batch failing, the
fetcher attempts a batch of size 625 — the halving retry runs whenever the
failing size exceeds 1000, so from 10000 the attempted sizes are
10000, 5000, 2500, 1250, 625, and the claim that the attempted sizes never go
below the floor of 1000 is false. -/
theorem batchRetryFloor_counterexample :
    625 ∈ (queryEventsInBatches alwaysFailingBatchQuery 0 9999 10000).2.map
        (fun x => x.2.2)
    ∧ 625 < 1000 := by
  decide

/-- C4 (amended): for every input range and chain behaviour, a failing
sub-range is retried with half the batch size while the failing size exceeds
1000, so starting from the default size 10000 every attempted batch size is
one of 10000, 5000, 2500, 1250, 625 (in particular the floor actually reached
is 625, one halving below 1000, and nothing smaller is ever attempted); and a
sub-range that still fails at the floor is dropped rather than raised — with
every query failing, the fetcher still returns (an empty event list) instead
of propagating the failure. -/
theorem batchRetryHalving_bounded {α : Type} (q : Nat → Nat → Option (List α))
    (fromBlock toBlock : Nat) :
    (∀ x ∈ (queryEventsInBatches q fromBlock toBlock 10000).2,
        x.2.2 ∈ [10000, 5000, 2500, 1250, 625])
    ∧ ((∀ a b, q a b = none) →
        (queryEventsInBatches q fromBlock toBlock 10000).1 = []) := by
  constructor
  · intro x hx
    exact reachableBatchSize_from_10000
      (queryEventsInBatchesFuel_sizes_reachable q _ _ _ _ x hx)
  · intro hq
    exact queryEventsInBatchesFuel_fail_events q hq _ _ _ _

/-- Witness for `batchRetryHalving_bounded`: the first attempt on `[0, 9999]`
is the batch `(0, 9999, 10000)`, whose size 10000 the theorem places in the
allowed list, and with the always-failing chain the returned event list is
empty. -/
theorem batchRetryHalving_bounded_witness :
    ((0, 9999, 10000) : Nat × Nat × Nat).2.2 ∈ [10000, 5000, 2500, 1250, 625]
    ∧ (queryEventsInBatches alwaysFailingBatchQuery 0 9999 10000).1 = [] :=
  ⟨(batchRetryHalving_bounded alwaysFailingBatchQuery 0 9999).1 (0, 9999, 10000)
      (by decide),
    (batchRetryHalving_bounded alwaysFailingBatchQuery 0 9999).2
      (fun a b => rfl)⟩

/-- C7 counterexample: the registry search of `getVendorForOracle` explicitly
skips entries whose extracted address is the zero address, so its dedicated
escrow branch is unreachable: for the adapter `0x0000...0000` whose (only)
registry entry carries exactly the all-zero address, the result is the
Unresolved classification `oracle not known`, not the claimed
`no oracle (escrow)`. -/
theorem zeroAddressEntry_counterexample :
    (zeroEntryRegistry.eulerOracles.map (fun el => extractAddress el.addressLink))
      = [some zeroAddress]
    ∧ getVendorForOracle zeroAddress zeroEntryRegistry
      = { vendor := "oracle not known", underlying := [], vendorType := "error" }
    ∧ getVendorForOracle zeroAddress zeroEntryRegistry
      ≠ { vendor := "no oracle (escrow)", underlying := []
          vendorType := "no oracle (escrow)" } := by
  refine ⟨by decide, by decide, by decide⟩

/-- C7 (amended): vendor resolution behaves as follows.  (1) An adapter whose
address is in the known-vault set resolves to the Vault classification
regardless of registry contents.  (2) A registry entry carrying the all-zero
address never matches the registry search (the search predicate rejects it),
so (3) an adapter with no matching registry entry — which includes every
adapter whose registry entry carries the zero address — resolves to the
Unresolved classification `oracle not known` when it is not in the vault set.
The claimed EscrowNoOracle result for zero-address entries does not occur;
that branch of the code is dead. -/
theorem vendorResolution_rules :
    (∀ (adapterAddress : String) (oracleData : LoadedOracleData),
        (vaultMatch adapterAddress oracleData.vaultDeployments).isSome = true →
        getVendorForOracle adapterAddress oracleData
          = { vendor := "Euler Vault", underlying := [], vendorType := "vault" })
    ∧ (∀ (adapterAddress : String) (el : OracleData),
        extractAddress el.addressLink = some zeroAddress →
        registryEntryMatches adapterAddress el = false)
    ∧ (∀ (adapterAddress : String) (oracleData : LoadedOracleData),
        vaultMatch adapterAddress oracleData.vaultDeployments = none →
        oracleData.eulerOracles.find? (registryEntryMatches adapterAddress) = none →
        getVendorForOracle adapterAddress oracleData
          = { vendor := "oracle not known", underlying := [], vendorType := "error" }) := by
  refine ⟨?_, ?_, ?_⟩
  · intro adapterAddress oracleData h
    unfold getVendorForOracle
    cases hv : vaultMatch adapterAddress oracleData.vaultDeployments with
    | some v => rfl
    | none => rw [hv] at h; simp at h
  · intro adapterAddress el h
    unfold registryEntryMatches
    rw [h]
    simp
  · intro adapterAddress oracleData h1 h2
    unfold getVendorForOracle
    rw [h1, h2]

/-- Witness for `vendorResolution_rules`, exercising all three rules on
concrete data: the vault rule beats a present registry entry; the zero-address
entry of `zeroEntryRegistry` fails the search predicate; and an adapter that
matches nothing resolves to `oracle not known`. -/
theorem vendorResolution_rules_witness :
    getVendorForOracle crossAdapterAddress vaultSetData
      = { vendor := "Euler Vault", underlying := [], vendorType := "vault" }
    ∧ registryEntryMatches "0x1111111111111111111111111111111111111111"
        { provider := some "Chainlink", providerInfo := some "Chainlink Data Feed"
          addressLink :=
            some "https://etherscan.io/address/0x0000000000000000000000000000000000000000" }
      = false
    ∧ getVendorForOracle "0x1111111111111111111111111111111111111111" emptyOracleData
      = { vendor := "oracle not known", underlying := [], vendorType := "error" } :=
  ⟨vendorResolution_rules.1 crossAdapterAddress vaultSetData (by decide),
    vendorResolution_rules.2.1 "0x1111111111111111111111111111111111111111" _ (by decide),
    vendorResolution_rules.2.2 "0x1111111111111111111111111111111111111111"
      emptyOracleData (by decide) (by decide)⟩

/-- C8: for an adapter that is not a known vault, whose registry entry is
found and whose provider label normalizes to the composite marker `Cross`,
attribution consults the composite-detail table: a found record without error
yields exactly the two independently normalized leg names as the underlying
set; a missing or errored lookup yields the composite marker with an empty
underlying set — no invented name. -/
theorem compositeSplit (adapterAddress : String) (oracleData : LoadedOracleData)
    (el : OracleData)
    (h1 : vaultMatch adapterAddress oracleData.vaultDeployments = none)
    (h2 : oracleData.eulerOracles.find? (registryEntryMatches adapterAddress) = some el)
    (h3 : normalizeVendorName el.providerInfo = "Cross") :
    (∀ c la lb, crossDetailFind adapterAddress oracleData.crossAnalysis = some c →
        jsTruthyStr c.error = false →
        c.baseCrossName = some la → c.crossQuoteName = some lb →
        getVendorForOracle adapterAddress oracleData
          = { vendor := "Cross"
              underlying := [normalizeVendorName (some la), normalizeVendorName (some lb)]
              vendorType := "external" })
    ∧ (crossDetailFind adapterAddress oracleData.crossAnalysis = none →
        getVendorForOracle adapterAddress oracleData
          = { vendor := "Cross", underlying := [], vendorType := "external" })
    ∧ (∀ c, crossDetailFind adapterAddress oracleData.crossAnalysis = some c →
        jsTruthyStr c.error = true →
        getVendorForOracle adapterAddress oracleData
          = { vendor := "Cross", underlying := [], vendorType := "external" }) := by
  have hpred : registryEntryMatches adapterAddress el = true := List.find?_some h2
  obtain ⟨a, hea, hane⟩ :
      ∃ a, extractAddress el.addressLink = some a ∧ ¬ (a = zeroAddress) := by
    unfold registryEntryMatches at hpred
    cases hea : extractAddress el.addressLink with
    | none => rw [hea] at hpred; simp at hpred
    | some a =>
      rw [hea] at hpred
      refine ⟨a, rfl, ?_⟩
      intro hh
      rw [hh] at hpred
      simp at hpred
  have hmain : getVendorForOracle adapterAddress oracleData
      = match crossDetailFind adapterAddress oracleData.crossAnalysis with
        | some crossOracle =>
          if jsTruthyStr crossOracle.error then
            { vendor := "Cross", underlying := [], vendorType := "external" }
          else
            { vendor := "Cross"
              underlying := [normalizeVendorName crossOracle.baseCrossName,
                             normalizeVendorName crossOracle.crossQuoteName]
              vendorType := "external" }
        | none => { vendor := "Cross", underlying := [], vendorType := "external" } := by
    simp only [getVendorForOracle, h1, h2, hea, h3, if_neg hane]
    simp
  refine ⟨?_, ?_, ?_⟩
  · intro c la lb hc herr hla hlb
    rw [hmain, hc]
    simp [herr, hla, hlb]
  · intro hc
    rw [hmain, hc]
  · intro c hc herr
    rw [hmain, hc]
    simp [herr]

/-- Witness for `compositeSplit` on concrete data: a composite adapter with an
error-free detail record splits into its two normalized legs; with no detail
record or an errored one, the underlying set is empty. -/
theorem compositeSplit_witness :
    getVendorForOracle crossAdapterAddress crossDataOk
      = { vendor := "Cross", underlying := ["Chainlink", "Pyth"]
          vendorType := "external" }
    ∧ getVendorForOracle crossAdapterAddress crossDataMissing
      = { vendor := "Cross", underlying := [], vendorType := "external" }
    ∧ getVendorForOracle crossAdapterAddress crossDataErr
      = { vendor := "Cross", underlying := [], vendorType := "external" } :=
  ⟨(compositeSplit crossAdapterAddress crossDataOk crossRegistryEntry (by decide)
        (by decide) (by decide)).1 crossDetailOk "Chainlink ETH/USD" "Pyth BTC/USD"
      (by decide) (by decide) (by decide) (by decide),
    (compositeSplit crossAdapterAddress crossDataMissing crossRegistryEntry (by decide)
        (by decide) (by decide)).2.1 (by decide),
    (compositeSplit crossAdapterAddress crossDataErr crossRegistryEntry (by decide)
        (by decide) (by decide)).2.2 crossDetailErr (by decide) (by decide)⟩

/-- C9 counterexample: with no checkpoint and a non-empty cached deployment
list, the ROUTER source does not decide to query — `shouldQueryFactory` is
left `false` in that branch — and the returned start block is 0, not the
cache's latest known block (the `[-1]` index is `undefined` in JS).  This
refutes the claim that every source decides `shouldQuery = true` in this
situation. -/
theorem routerRescan_counterexample :
    evaluateRouterFactoryQuery (some 19400000) [sampleDeployment] emptyProgress
      = Except.ok (0, false) := by
  rfl

/-- C9 (amended): with no checkpoint (by JS truthiness) and a non-empty
deployment cache, the two sources diverge: the VAULT source decides to query
(`shouldQuery = true`) with the bounded rescan start
`max(currentHead - 10000, 0)` (truncated subtraction), while the ROUTER source
decides not to query the factory (`shouldQuery = false`), reusing the cached
deployments; its returned start block is 0 because the intended
latest-cached-block lookup indexes the array at −1, which yields `undefined`
in JS. -/
theorem rescanNoCheckpoint_rules :
    (∀ (cfg : Option Nat) (ds : List VaultDeployment) (progress : Progress)
        (currentBlock : Nat),
        jsTruthyNat progress.lastVaultFactoryBlock = false →
        0 < ds.length →
        evaluateVaultFactoryQuery cfg ds progress currentBlock
          = Except.ok (currentBlock - 10000, true))
    ∧ (∀ (cfg : Option Nat) (ds : List RouterDeployment) (progress : Progress),
        jsTruthyNat progress.lastRouterFactoryBlock = false →
        0 < ds.length →
        evaluateRouterFactoryQuery cfg ds progress
          = Except.ok (0, false)) := by
  constructor
  · intro cfg ds progress currentBlock hcp hds
    unfold evaluateVaultFactoryQuery
    rw [hcp]
    simp [hds]
  · intro cfg ds progress hcp hds
    unfold evaluateRouterFactoryQuery
    rw [hcp]
    simp [hds, jsIndex]

/-- Witness for `rescanNoCheckpoint_rules` at concrete inputs: a vault run at
head 123456 with one cached deployment rescans from 113456 and queries; a
router run with one cached deployment skips the factory query with start
block 0. -/
theorem rescanNoCheckpoint_rules_witness :
    evaluateVaultFactoryQuery (some 19400000)
        [{ address := "0xv", deploymentBlock := 42 }] emptyProgress 123456
      = Except.ok (113456, true)
    ∧ evaluateRouterFactoryQuery (some 19400000) [sampleDeployment] emptyProgress
      = Except.ok (0, false) :=
  ⟨rescanNoCheckpoint_rules.1 (some 19400000)
      [{ address := "0xv", deploymentBlock := 42 }] emptyProgress 123456
      (by decide) (by decide),
    rescanNoCheckpoint_rules.2 (some 19400000) [sampleDeployment] emptyProgress
      (by decide) (by decide)⟩

/-- C5 counterexample: on a cold start (empty deployment cache, no checkpoint,
no configured start block) the run does fail with a configuration error naming
`ROUTER_FACTORY_START_BLOCK` — but not before any network call: the trace at
the moment of failure already contains the `getBlockNumber` call, because
`fetchRouters` awaits the current chain head before evaluating the start-block
requirement. -/
theorem coldStartNetworkCall_counterexample :
    (fetchRouters none 50000 emptyOracleData 23000000 []
        (fun _ _ => some []) (fun _ _ _ => Except.ok []) emptyProgress).2
      = [NetOp.getBlockNumber]
    ∧ (fetchRouters none 50000 emptyOracleData 23000000 []
        (fun _ _ => some []) (fun _ _ _ => Except.ok []) emptyProgress).1
      = Except.error ("ERROR: ROUTER_FACTORY_START_BLOCK is not set in .env file (factory "
          ++ ROUTER_FACTORY ++ ")") := by
  exact ⟨rfl, rfl⟩

/-- C5 (amended): on a cold start — empty deployment cache, no checkpoint (by
JS truthiness) and no configured start block (by JS truthiness) — the run
fails with a fatal configuration error whose message names the missing
setting `ROUTER_FACTORY_START_BLOCK`, before any event query is issued; the
only network call preceding the failure is the initial chain-head request
(`getBlockNumber`). -/
theorem coldStartFailFast (cfg : Option Nat) (recheckInterval : Nat)
    (oracleData : LoadedOracleData) (head : Nat)
    (factoryQ : Nat → Nat → Option (List FactoryEvent))
    (routerQ : String → Nat → Nat → Except String (List ConfigEvent))
    (progress : Progress)
    (hcp : jsTruthyNat progress.lastRouterFactoryBlock = false)
    (hcfg : jsTruthyNat cfg = false) :
    fetchRouters cfg recheckInterval oracleData head [] factoryQ routerQ progress
      = (Except.error ("ERROR: ROUTER_FACTORY_START_BLOCK is not set in .env file (factory "
            ++ ROUTER_FACTORY ++ ")"),
          [NetOp.getBlockNumber]) := by
  unfold fetchRouters evaluateRouterFactoryQuery requireStartBlock
  rw [hcp]
  simp [hcfg, Except.map]

/-- Witness for `coldStartFailFast` at concrete cold-start inputs. -/
theorem coldStartFailFast_witness :
    fetchRouters none 50000 emptyOracleData 23000000 []
        (fun _ _ => some []) (fun _ _ _ => Except.ok []) emptyProgress
      = (Except.error ("ERROR: ROUTER_FACTORY_START_BLOCK is not set in .env file (factory "
            ++ ROUTER_FACTORY ++ ")"),
          [NetOp.getBlockNumber]) :=
  coldStartFailFast none 50000 emptyOracleData 23000000
    (fun _ _ => some []) (fun _ _ _ => Except.ok []) emptyProgress rfl rfl

/-- C6: an already-processed router is skipped exactly when
`currentHead - lastProcessedBlock < recheckIntervalBlocks` (in which case its
stored state is left untouched and no query is issued), and otherwise it is
re-queried over the range `[lastProcessedBlock + 1, currentHead]`. -/
theorem recheckScheduling (recheckInterval : Nat) (oracleData : LoadedOracleData)
    (q : Nat → Nat → Except String (List ConfigEvent)) (d : RouterDeployment)
    (currentBlock lastProcessed : Nat) (p : Progress)
    (h : p.processedRouters d.address = some lastProcessed) :
    ((currentBlock : Int) - (lastProcessed : Int) < (recheckInterval : Int) →
        processOneRouter recheckInterval oracleData q d currentBlock p = (p, none))
    ∧ ((recheckInterval : Int) ≤ (currentBlock : Int) - (lastProcessed : Int) →
        (processOneRouter recheckInterval oracleData q d currentBlock p).2
          = some (lastProcessed + 1, currentBlock)) := by
  constructor
  · intro hlt
    simp only [processOneRouter]
    rw [h]
    simp [hlt]
  · intro hge
    have hlt : ¬ ((currentBlock : Int) - (lastProcessed : Int)
        < (recheckInterval : Int)) := by omega
    simp only [processOneRouter]
    rw [h]
    simp only [if_neg hlt]
    cases hq : q (lastProcessed + 1) currentBlock with
    | error e => simp [hq]
    | ok evs => simp [hq]

/-- Witness for `recheckScheduling` at the concrete numbers of the claim:
with `recheckIntervalBlocks = 50000` and `lastProcessedBlock = 1000`, a run at
head 1100 skips the router (state unchanged, no query), and a run at head
51001 re-queries it over `[1001, 51001]`. -/
theorem recheckScheduling_witness :
    processOneRouter 50000 emptyOracleData emptyOkRouterQuery sampleDeployment 1100
        sampleProgress
      = (sampleProgress, none)
    ∧ (processOneRouter 50000 emptyOracleData emptyOkRouterQuery sampleDeployment 51001
        sampleProgress).2
      = some (1001, 51001) :=
  ⟨(recheckScheduling 50000 emptyOracleData emptyOkRouterQuery sampleDeployment 1100
      1000 sampleProgress (by decide)).1 (by decide),
    (recheckScheduling 50000 emptyOracleData emptyOkRouterQuery sampleDeployment 51001
      1000 sampleProgress (by decide)).2 (by decide)⟩

/-- C1 counterexample: on a recheck, the written record sets
`vaultEventsCount: 0` unconditionally, so an existing record whose
`vaultEventsCount` is 1 (as an externally supplied progress file may contain —
the file is parsed without validation) has that event counter overwritten with
0 rather than summed: the claim that event counters are "summed with the
previous totals, never overwritten" fails for this counter. -/
theorem recheckMergeCounter_counterexample :
    (sampleProgress.routers "0xrouter").map (fun r => r.vaultEventsCount) = some 1
    ∧ ((processOneRouter 50000 emptyOracleData emptyOkRouterQuery sampleDeployment
          51001 sampleProgress).1.routers "0xrouter").map (fun r => r.vaultEventsCount)
      = some 0 := by
  exact ⟨rfl, rfl⟩

/-- C1 (amended): a recheck merge is additive on the cached facts: it starts
from the existing adapter set and asset-pair map and only adds to them — every
previously recorded adapter remains in the new record, and every asset-pair
entry is extended, never truncated or replaced — and the config-event counter
is summed with the previous total.  The vault-event counter, however, is not
summed but unconditionally reset to 0 (the pipeline itself never writes any
other value, so this is only observable on records of nonzero
`vaultEventsCount` supplied externally). -/
theorem recheckMerge_additive (recheckInterval : Nat) (oracleData : LoadedOracleData)
    (q : Nat → Nat → Except String (List ConfigEvent)) (d : RouterDeployment)
    (currentBlock lastProcessed : Nat) (p : Progress) (oldInfo : RouterInfo)
    (evs : List ConfigEvent)
    (h1 : p.processedRouters d.address = some lastProcessed)
    (h2 : (recheckInterval : Int) ≤ (currentBlock : Int) - (lastProcessed : Int))
    (h3 : p.routers d.address = some oldInfo)
    (h4 : q (lastProcessed + 1) currentBlock = Except.ok evs) :
    ∃ newInfo,
      (processOneRouter recheckInterval oracleData q d currentBlock p).1.routers
          d.address = some newInfo
      ∧ (∀ x ∈ oldInfo.adapters, x ∈ newInfo.adapters)
      ∧ (∀ k l, oldInfo.assetPairs k = some l →
          ∃ rest, newInfo.assetPairs k = some (l ++ rest))
      ∧ newInfo.configEventsCount = oldInfo.configEventsCount + evs.length
      ∧ newInfo.vaultEventsCount = 0
      ∧ (processOneRouter recheckInterval oracleData q d currentBlock p).1.processedRouters
          d.address = some currentBlock := by
  have hlt : ¬ ((currentBlock : Int) - (lastProcessed : Int)
      < (recheckInterval : Int)) := by omega
  have hres : processOneRouter recheckInterval oracleData q d currentBlock p
      = ({ p with
            routers := mapUpd p.routers d.address
              { deploymentBlock := d.deploymentBlock
                adapters := (evs.foldl applyConfigEvent
                  (jsSetOfList oldInfo.adapters, oldInfo.assetPairs)).1
                assetPairs := (evs.foldl applyConfigEvent
                  (jsSetOfList oldInfo.adapters, oldInfo.assetPairs)).2
                vendorInfo := buildVendorInfo oracleData
                  (evs.foldl applyConfigEvent
                    (jsSetOfList oldInfo.adapters, oldInfo.assetPairs)).1
                configEventsCount := oldInfo.configEventsCount + evs.length
                vaultEventsCount := 0 }
            processedRouters := mapUpd p.processedRouters d.address currentBlock },
          some (lastProcessed + 1, currentBlock)) := by
    simp only [processOneRouter]
    rw [h1]
    simp only [if_neg hlt, h4, h3]
  rw [hres]
  refine ⟨_, mapUpd_self _ _ _, ?_, ?_, rfl, rfl, mapUpd_self _ _ _⟩
  · intro x hx
    exact foldl_applyConfigEvent_adapters_mono evs _ x (mem_jsSetOfList hx)
  · intro k l hk
    exact foldl_applyConfigEvent_pairs_mono evs _ k l hk

/-- Witness for `recheckMerge_additive` on concrete data: rechecking the
sample router (last processed at 1000) at head 51001 with an empty query
result preserves its facts. -/
theorem recheckMerge_additive_witness :
    ∃ newInfo,
      (processOneRouter 50000 emptyOracleData emptyOkRouterQuery sampleDeployment
          51001 sampleProgress).1.routers "0xrouter" = some newInfo
      ∧ (∀ x ∈ sampleRouterInfo.adapters, x ∈ newInfo.adapters)
      ∧ (∀ k l, sampleRouterInfo.assetPairs k = some l →
          ∃ rest, newInfo.assetPairs k = some (l ++ rest))
      ∧ newInfo.configEventsCount = sampleRouterInfo.configEventsCount + 0
      ∧ newInfo.vaultEventsCount = 0
      ∧ (processOneRouter 50000 emptyOracleData emptyOkRouterQuery sampleDeployment
          51001 sampleProgress).1.processedRouters "0xrouter" = some 51001 :=
  recheckMerge_additive 50000 emptyOracleData emptyOkRouterQuery sampleDeployment
    51001 1000 sampleProgress sampleRouterInfo [] (by decide) (by decide) rfl rfl

/-- How one router iteration can change the `processedRouters` map at any
address: either it leaves the entry unchanged, or the address is the processed
router itself, the entry becomes the current head, and any previously stored
block was at least `recheckInterval` behind the head. -/
theorem processOneRouter_processed_cases (recheckInterval : Nat)
    (oracleData : LoadedOracleData)
    (q : Nat → Nat → Except String (List ConfigEvent)) (d : RouterDeployment)
    (currentBlock : Nat) (p : Progress) (a : String) :
    (processOneRouter recheckInterval oracleData q d currentBlock p).1.processedRouters a
      = p.processedRouters a
    ∨ (a = d.address
        ∧ (processOneRouter recheckInterval oracleData q d currentBlock
            p).1.processedRouters a = some currentBlock
        ∧ (∀ b, p.processedRouters a = some b →
            (recheckInterval : Int) ≤ (currentBlock : Int) - (b : Int))) := by
  cases hpd : p.processedRouters d.address with
  | none =>
    cases hq : q d.deploymentBlock currentBlock with
    | error e =>
      left
      simp only [processOneRouter]
      rw [hpd]
      simp [hq]
    | ok evs =>
      by_cases hda : a = d.address
      · right
        refine ⟨hda, ?_, ?_⟩
        · simp only [processOneRouter]
          rw [hpd]
          simp only [hq]
          rw [hda]
          exact mapUpd_self _ _ _
        · intro b hb
          rw [hda, hpd] at hb
          cases hb
      · left
        simp only [processOneRouter]
        rw [hpd]
        simp only [hq]
        exact mapUpd_ne _ _ hda
  | some lastProcessed =>
    by_cases hlt : (currentBlock : Int) - (lastProcessed : Int) < (recheckInterval : Int)
    · left
      simp only [processOneRouter]
      rw [hpd]
      simp [hlt]
    · cases hq : q (lastProcessed + 1) currentBlock with
      | error e =>
        left
        simp only [processOneRouter]
        rw [hpd]
        simp [if_neg hlt, hq]
      | ok evs =>
        by_cases hda : a = d.address
        · right
          refine ⟨hda, ?_, ?_⟩
          · simp only [processOneRouter]
            rw [hpd]
            simp only [if_neg hlt, hq]
            rw [hda]
            exact mapUpd_self _ _ _
          · intro b hb
            rw [hda, hpd] at hb
            cases hb
            omega
        · left
          simp only [processOneRouter]
          rw [hpd]
          simp only [if_neg hlt, hq]
          exact mapUpd_ne _ _ hda

/-- The router loop preserves the per-address monotonicity invariant: an entry
equal to its old value `b`, or already advanced to the current head with
`b + recheckInterval ≤ head`. -/
theorem processRoutersFold_processed_inv (recheckInterval : Nat)
    (oracleData : LoadedOracleData)
    (env : String → Nat → Nat → Except String (List ConfigEvent))
    (currentBlock : Nat) (a : String) (b : Nat) :
    ∀ (ds : List RouterDeployment) (p : Progress),
      (p.processedRouters a = some b
        ∨ (p.processedRouters a = some currentBlock ∧ b + recheckInterval ≤ currentBlock)) →
      ((processRoutersFold recheckInterval oracleData env ds currentBlock
            p).1.processedRouters a = some b
        ∨ ((processRoutersFold recheckInterval oracleData env ds currentBlock
              p).1.processedRouters a = some currentBlock
            ∧ b + recheckInterval ≤ currentBlock)) := by
  intro ds
  induction ds with
  | nil => intro p hp; exact hp
  | cons d ds ih =>
    intro p hp
    have hstep := processOneRouter_processed_cases recheckInterval oracleData
      (env d.address) d currentBlock p a
    cases hpo : processOneRouter recheckInterval oracleData (env d.address) d
        currentBlock p with
    | mk p2 issued =>
      have hfold1 : (processRoutersFold recheckInterval oracleData env (d :: ds)
          currentBlock p).1
          = (processRoutersFold recheckInterval oracleData env ds currentBlock p2).1 := by
        simp only [processRoutersFold, hpo]
      rw [hfold1]
      rw [hpo] at hstep
      apply ih
      rcases hstep with hstep | ⟨hda, hset, hbound⟩
      · rcases hp with hp | ⟨hp, hle⟩
        · exact Or.inl (by rw [hstep, hp])
        · exact Or.inr ⟨by rw [hstep, hp], hle⟩
      · rcases hp with hp | ⟨hp, hle⟩
        · have := hbound b hp
          exact Or.inr ⟨hset, by omega⟩
        · exact Or.inr ⟨hset, hle⟩

/-- C2: across a run of router processing, an entity's recorded
`lastProcessedBlock` never decreases: the stored value either remains exactly
the old value (skip, or a failed query) or is replaced by the current head,
which is then at least `recheckIntervalBlocks` above the old value.  This
holds for each run, hence across every pair of successive runs. -/
theorem lastProcessedBlock_monotone (recheckInterval : Nat)
    (oracleData : LoadedOracleData)
    (env : String → Nat → Nat → Except String (List ConfigEvent))
    (ds : List RouterDeployment) (currentBlock : Nat) (p : Progress)
    (a : String) (b : Nat)
    (hb : p.processedRouters a = some b) :
    ∃ c, (processRouterDeployments recheckInterval oracleData env ds currentBlock
          p).1.processedRouters a = some c
      ∧ b ≤ c
      ∧ (c = b ∨ (c = currentBlock ∧ b + recheckInterval ≤ currentBlock)) := by
  have hinv := processRoutersFold_processed_inv recheckInterval oracleData env
    currentBlock a b ds p (Or.inl hb)
  have hproj : (processRouterDeployments recheckInterval oracleData env ds currentBlock
      p).1.processedRouters
      = (processRoutersFold recheckInterval oracleData env ds currentBlock
          p).1.processedRouters := rfl
  rcases hinv with hinv | ⟨hinv, hle⟩
  · exact ⟨b, by rw [hproj]; exact hinv, le_refl b, Or.inl rfl⟩
  · exact ⟨currentBlock, by rw [hproj]; exact hinv, by omega, Or.inr ⟨rfl, hle⟩⟩

/-- Witness for `lastProcessedBlock_monotone`: a run over the sample state
(router last processed at block 1000) at head 51001. -/
theorem lastProcessedBlock_monotone_witness :
    ∃ c, (processRouterDeployments 50000 emptyOracleData
          (fun _ => emptyOkRouterQuery) [sampleDeployment] 51001
          sampleProgress).1.processedRouters "0xrouter" = some c
      ∧ 1000 ≤ c
      ∧ (c = 1000 ∨ (c = 51001 ∧ 1000 + 50000 ≤ 51001)) :=
  lastProcessedBlock_monotone 50000 emptyOracleData (fun _ => emptyOkRouterQuery)
    [sampleDeployment] 51001 sampleProgress "0xrouter" 1000 (by decide)

/-- A router iteration whose query environment throws leaves the progress
state untouched: the `catch` block of the source only logs the error. -/
theorem processOneRouter_fail (recheckInterval : Nat) (oracleData : LoadedOracleData)
    (q : Nat → Nat → Except String (List ConfigEvent)) (d : RouterDeployment)
    (currentBlock : Nat) (p : Progress) (msg : String)
    (hq : ∀ x y, q x y = Except.error msg) :
    (processOneRouter recheckInterval oracleData q d currentBlock p).1 = p := by
  cases hpd : p.processedRouters d.address with
  | none =>
    simp only [processOneRouter]
    rw [hpd]
    simp [hq]
  | some lastProcessed =>
    by_cases hlt : (currentBlock : Int) - (lastProcessed : Int) < (recheckInterval : Int)
    · simp only [processOneRouter]
      rw [hpd]
      simp [hlt]
    · simp only [processOneRouter]
      rw [hpd]
      simp [if_neg hlt, hq]

/-- C3 counterexample: after a failing query for the sample router *nothing*
is recorded: the resulting progress state is exactly the input state — in
particular the entity's record (which exists) carries no error, and indeed
`RouterInfo` has no field in which an error could be recorded.  This refutes
the part of the claim stating that the error is recorded on that entity's
record. -/
theorem entityErrorNotRecorded_counterexample :
    (processOneRouter 50000 emptyOracleData failingRouterQuery sampleDeployment 51001
        sampleProgress).1 = sampleProgress
    ∧ (sampleProgress.routers "0xrouter").isSome = true := by
  exact ⟨rfl, rfl⟩

/-- C3 (amended): a query or decode error for one entity leaves that entity's
existing cached facts (and the whole progress state) completely unchanged, and
processing continues with the next entity — the run over `d :: ds` with `d`
failing produces exactly the state of the run over `ds` — but the error is
only logged to the console, not recorded on the entity's record. -/
theorem entityFailure_isolated (recheckInterval : Nat) (oracleData : LoadedOracleData)
    (env : String → Nat → Nat → Except String (List ConfigEvent))
    (d : RouterDeployment) (ds : List RouterDeployment) (currentBlock : Nat)
    (p : Progress) (msg : String)
    (hq : ∀ x y, env d.address x y = Except.error msg) :
    (processRouterDeployments recheckInterval oracleData env (d :: ds) currentBlock
        p).1
      = (processRouterDeployments recheckInterval oracleData env ds currentBlock p).1 := by
  have hfail := processOneRouter_fail recheckInterval oracleData (env d.address) d
    currentBlock p msg hq
  have hfold : (processRoutersFold recheckInterval oracleData env (d :: ds)
      currentBlock p).1
      = (processRoutersFold recheckInterval oracleData env ds currentBlock
          (processOneRouter recheckInterval oracleData (env d.address) d currentBlock
            p).1).1 := by
    cases hpo : processOneRouter recheckInterval oracleData (env d.address) d
        currentBlock p with
    | mk p2 issued => simp only [processRoutersFold, hpo]
  simp only [processRouterDeployments]
  rw [hfold, hfail]

/-- Witness for `entityFailure_isolated`: the sample router fails while a
second router follows in the list; the resulting state is that of processing
only the second router. -/
theorem entityFailure_isolated_witness :
    (processRouterDeployments 50000 emptyOracleData
        (fun a => if a = "0xrouter" then failingRouterQuery else emptyOkRouterQuery)
        [sampleDeployment, { address := "0xother", deploymentBlock := 7 }] 51001
        sampleProgress).1
      = (processRouterDeployments 50000 emptyOracleData
          (fun a => if a = "0xrouter" then failingRouterQuery else emptyOkRouterQuery)
          [{ address := "0xother", deploymentBlock := 7 }] 51001 sampleProgress).1 :=
  entityFailure_isolated 50000 emptyOracleData
    (fun a => if a = "0xrouter" then failingRouterQuery else emptyOkRouterQuery)
    sampleDeployment [{ address := "0xother", deploymentBlock := 7 }] 51001
    sampleProgress "could not decode result data" (fun _ _ => rfl)
